import Mathlib

/-!
Shallow embedding of `src/main.js` (a single-endpoint HTTP uptime monitor):
the bounded-retry prober / availability state machine `checkWebsite`, the
`lastStatus` cell, the notification dispatcher `sendNotification` and its
three backends, and the startup configuration check.
-/

namespace HealthCheck

/-- The JS value stored in the mutable cell `lastStatus` (line 66 / 80 / 86 /
103 of `src/main.js`): either a number (an HTTP status code, `200` meaning
healthy) or the string `"DOWN"`.  The two JS primitive types are modelled as
the two constructors. -/
inductive LastStatus
  | num (code : Nat)
  | down
deriving DecidableEq

/-- Outcome of one transport attempt (`http.get(URL_TO_CHECK)`, line 70):
either it completes with an HTTP response carrying a status code, or it
throws before completing (timeout, connection refused, DNS, ...) carrying an
error message. -/
inductive AttemptResult
  | response (status : Nat)
  | throws (message : String)
deriving DecidableEq

/-- The alert messages `checkWebsite` passes to `sendNotification`, as
structured values (lines 78, 84, 99-101 of `src/main.js`). -/
inductive Alert
  | backOnline
  | websiteDown (status : Nat)
  | errorAccessing (message : String)
deriving DecidableEq

/-- `const MAX_RETRIES = 3` (line 13 of `src/main.js`). -/
def MAX_RETRIES : Nat := 3

/-- Initial value of the `lastStatus` cell: `let lastStatus = 200`
(line 66 of `src/main.js`). -/
def lastStatusInit : LastStatus := LastStatus.num 200

/-- Result of one probe cycle `checkWebsite(retries)`: the alerts dispatched,
the value left in `lastStatus`, and how many transport attempts were made
(counted from attempt index 0, so this is the total number of attempts when
the cycle is started with `retries = 0`). -/
structure CycleResult where
  alerts : List Alert
  newStatus : LastStatus
  attempts : Nat
deriving DecidableEq

/-- `async function checkWebsite(retries = 0)` (lines 68-105 of
`src/main.js`).  `transport i` is the outcome of the `http.get` performed by
the call with `retries = i`.  A completed response is classified immediately
(alert iff the status differs from `lastStatus`); a thrown attempt is retried
while `retries < MAX_RETRIES`, after which the cycle alerts (iff `lastStatus`
is not already `"DOWN"`) and stores `"DOWN"`.  Dispatch is modelled as
emission of the alert value. -/
def checkWebsite (transport : Nat → AttemptResult) (lastStatus : LastStatus)
    (retries : Nat) : CycleResult :=
  match transport retries with
  | AttemptResult.response status =>
    if status = 200 then
      { alerts := if lastStatus ≠ LastStatus.num 200 then [Alert.backOnline] else [],
        newStatus := LastStatus.num 200,
        attempts := retries + 1 }
    else
      { alerts := if lastStatus ≠ LastStatus.num status then [Alert.websiteDown status] else [],
        newStatus := LastStatus.num status,
        attempts := retries + 1 }
  | AttemptResult.throws message =>
    if retries < MAX_RETRIES then
      checkWebsite transport lastStatus (retries + 1)
    else
      { alerts := if lastStatus ≠ LastStatus.down then [Alert.errorAccessing message] else [],
        newStatus := LastStatus.down,
        attempts := retries + 1 }
termination_by MAX_RETRIES + 1 - retries
decreasing_by simp_wf; omega

/-- An observable event inside one probe cycle, in program order: awaiting
the notification dispatch (`await sendNotification(...)`, lines 78, 84,
99-101) or writing the `lastStatus` cell (lines 80, 86, 103). -/
inductive Event
  | dispatchAwait (a : Alert)
  | stateWrite (s : LastStatus)
deriving DecidableEq

/-- The sequence of dispatch-await and state-write events performed by
`checkWebsite(retries)` (lines 68-105 of `src/main.js`), in the order the
source executes them: in every alerting branch the `await sendNotification`
statement precedes the assignment to `lastStatus`. -/
def checkWebsiteEvents (transport : Nat → AttemptResult) (lastStatus : LastStatus)
    (retries : Nat) : List Event :=
  match transport retries with
  | AttemptResult.response status =>
    if status = 200 then
      (if lastStatus ≠ LastStatus.num 200 then [Event.dispatchAwait Alert.backOnline] else [])
        ++ [Event.stateWrite (LastStatus.num 200)]
    else
      (if lastStatus ≠ LastStatus.num status then [Event.dispatchAwait (Alert.websiteDown status)] else [])
        ++ [Event.stateWrite (LastStatus.num status)]
  | AttemptResult.throws message =>
    if retries < MAX_RETRIES then
      checkWebsiteEvents transport lastStatus (retries + 1)
    else
      (if lastStatus ≠ LastStatus.down then [Event.dispatchAwait (Alert.errorAccessing message)] else [])
        ++ [Event.stateWrite LastStatus.down]
termination_by MAX_RETRIES + 1 - retries
decreasing_by simp_wf; omega

/-- The classified probe outcome domain of the spec: `Healthy`,
`Unhealthy(code)`, `Unreachable`. -/
inductive Status
  | healthy
  | unhealthy (code : Nat)
  | unreachable
deriving DecidableEq

/-- A transport whose every attempt produces the given classified outcome:
`healthy` completes with 200, `unhealthy code` completes with `code`,
`unreachable` throws on every attempt. -/
def statusTransport : Status → Nat → AttemptResult
  | Status.healthy, _ => AttemptResult.response 200
  | Status.unhealthy code, _ => AttemptResult.response code
  | Status.unreachable, _ => AttemptResult.throws "getaddrinfo ENOTFOUND"

/-- The `lastStatus` value that a cycle with the given classified outcome
leaves behind. -/
def encodeStatus : Status → LastStatus
  | Status.healthy => LastStatus.num 200
  | Status.unhealthy code => LastStatus.num code
  | Status.unreachable => LastStatus.down

/-- Run a sequence of probe cycles, one per classified outcome, threading
the `lastStatus` cell exactly as the scheduler's repeated `checkWebsite`
invocations do (line 171 of `src/main.js`); returns all alerts dispatched
and the final `lastStatus`. -/
def runCycles : List Status → LastStatus → List Alert × LastStatus
  | [], st => ([], st)
  | s :: rest, st =>
    let r := checkWebsite (statusTransport s) st 0
    let next := runCycles rest r.newStatus
    (r.alerts ++ next.1, next.2)

/-- A JS error object as the notification code observes it: the `message`
property and an optional `response` property whose `data` field (the
structured response body) is modelled as a string when present. -/
structure JsError where
  message : String
  response : Option String
deriving DecidableEq

/-- The value of an `http.post(...)` call expression at the call site:
either the call throws synchronously, or it returns a promise that later
settles with the given outcome.  (axios never throws synchronously in
practice; the constructor exists so that a catch branch guarding only a
synchronous call can be seen to be unreachable for promise-returning
calls.) -/
inductive PostCall
  | syncThrow (e : JsError)
  | promised (outcome : Except JsError Unit)

/-- What one backend invocation does: the console lines it writes, and the
exception (if any) that escapes the backend function. -/
structure BackendRun where
  logs : List String
  thrown : Option String
deriving DecidableEq

/-- `async function sendTelegramMessage(message)` (lines 117-135 of
`src/main.js`).  `outcome` is the settled result of the awaited
`Promise.all` over the per-chat posts.  On rejection the catch block logs
`error.message`, then evaluates `error.response.data` (line 132): when the
error carries no `response`, that property access itself throws a TypeError
inside the catch block, which escapes the function. -/
def sendTelegramMessage (outcome : Except JsError Unit) : BackendRun :=
  match outcome with
  | Except.ok _ => { logs := ["📨 Telegram notification sent."], thrown := none }
  | Except.error e =>
    match e.response with
    | some data =>
      { logs := ["⚠️ Failed to send Telegram message: " ++ e.message, data,
                 "Error: " ++ e.message],
        thrown := none }
    | none =>
      { logs := ["⚠️ Failed to send Telegram message: " ++ e.message],
        thrown := some "TypeError: cannot read property data of undefined" }

/-- `async function sendSlackMessage(message)` (lines 161-168 of
`src/main.js`): the post is awaited, every rejection is caught and logged,
nothing escapes. -/
def sendSlackMessage (outcome : Except JsError Unit) : BackendRun :=
  match outcome with
  | Except.ok _ => { logs := ["📨 Slack notification sent."], thrown := none }
  | Except.error e =>
    { logs := ["⚠️ Failed to send Slack message: " ++ e.message], thrown := none }

/-- `async function sendSmsMessage(message)` (lines 137-158 of
`src/main.js`): the `http.post` call is NOT awaited, so when it returns a
promise the success line is logged immediately and the promise's eventual
outcome is discarded; the catch branch can only run if the call itself
throws synchronously. -/
def sendSmsMessage (call : PostCall) : BackendRun :=
  match call with
  | PostCall.promised _ => { logs := ["📨 Sms message sent."], thrown := none }
  | PostCall.syncThrow e =>
    { logs := ["⚠️ Failed to send Sms message: " ++ e.message], thrown := none }

/-- `async function sendNotification(message)` (lines 108-114 of
`src/main.js`): `await Promise.all` over the three backends; the await
rethrows iff some backend's promise rejects (only the Telegram backend can,
via the TypeError in its catch block). -/
def sendNotification (tg slack : Except JsError Unit) (sms : PostCall) : BackendRun :=
  let t := sendTelegramMessage tg
  let s := sendSlackMessage slack
  let m := sendSmsMessage sms
  { logs := t.logs ++ s.logs ++ m.logs,
    thrown :=
      match t.thrown with
      | some e => some e
      | none =>
        match s.thrown with
        | some e => some e
        | none => m.thrown }

/-- The required environment variables of the startup check (lines 6-11,
45-53 of `src/main.js`); `none` models an unset variable. -/
structure Env where
  TELEGRAM_BOT_TOKEN : Option String
  TELEGRAM_CHAT_IDS : Option String
  SLACK_WEBHOOK_URL : Option String
  URL_TO_CHECK : Option String
deriving DecidableEq

/-- JS truthiness of an optional string env value: `undefined` and the
empty string are falsy, every other string is truthy. -/
def jsTruthy : Option String → Bool
  | none => false
  | some s => !s.isEmpty

/-- JS `s.split(",")` on a list of characters: splits at every comma,
keeping empty segments (so the result is never the empty list). -/
def splitCommaAux : List Char → List Char → List String
  | [], acc => [String.mk acc.reverse]
  | c :: rest, acc =>
    if c = ',' then String.mk acc.reverse :: splitCommaAux rest []
    else splitCommaAux rest (c :: acc)

/-- JS `s.split(",")`. -/
def splitComma (s : String) : List String := splitCommaAux s.data []

/-- `const TELEGRAM_CHAT_IDS = process.env.TELEGRAM_CHAT_IDS ?
process.env.TELEGRAM_CHAT_IDS.split(",") : []` (lines 7-9 of
`src/main.js`): the ternary tests JS truthiness, so both an unset variable
and the empty string yield `[]` — only a truthy (non-empty) value is
split. -/
def chatIdsOf (e : Env) : List String :=
  match e.TELEGRAM_CHAT_IDS with
  | none => []
  | some s => if s.isEmpty then [] else splitComma s

/-- What the top level of the process does after config loading: exit with
a code, or fall through to `setInterval(checkWebsite, CHECK_INTERVAL)`
(line 171 of `src/main.js`). -/
inductive StartupResult
  | exitProcess (code : Nat)
  | enterLoop
deriving DecidableEq

/-- The startup configuration check (lines 45-53 of `src/main.js`):
`if (!TELEGRAM_BOT_TOKEN || TELEGRAM_CHAT_IDS.length === 0 || !URL_TO_CHECK
|| !SLACK_WEBHOOK_URL) { console.error(...); process.exit(1); }`, otherwise
the script reaches the `setInterval` monitoring loop. -/
def startup (e : Env) : StartupResult :=
  if !jsTruthy e.TELEGRAM_BOT_TOKEN
      || (chatIdsOf e).length == 0
      || !jsTruthy e.URL_TO_CHECK
      || !jsTruthy e.SLACK_WEBHOOK_URL then
    StartupResult.exitProcess 1
  else
    StartupResult.enterLoop

/-! ## Helper lemmas -/

/-- An alerting branch of `checkWebsite` always has the form: a conditional
dispatch await followed by the state write. -/
theorem dispatch_then_write_shape (p : Prop) [Decidable p] (a : Alert) (s : LastStatus) :
    ∃ (as : List Alert) (s' : LastStatus),
      (if p then [Event.dispatchAwait a] else []) ++ [Event.stateWrite s]
        = as.map Event.dispatchAwait ++ [Event.stateWrite s'] := by
  refine ⟨if p then [a] else [], s, ?_⟩
  by_cases h : p <;> simp [h]

/-- One cycle driven by a constant-outcome transport leaves
`encodeStatus s` in the state cell. -/
theorem checkWebsite_statusTransport_newStatus (s : Status) (st : LastStatus) :
    (checkWebsite (statusTransport s) st 0).newStatus = encodeStatus s := by
  cases s with
  | healthy => simp [checkWebsite, statusTransport, encodeStatus]
  | unhealthy code =>
    rcases eq_or_ne code 200 with rfl | hc <;>
      simp [checkWebsite, statusTransport, encodeStatus, *]
  | unreachable => simp [checkWebsite, statusTransport, encodeStatus, MAX_RETRIES]

/-- One cycle driven by a constant-outcome transport alerts exactly when the
new encoded status differs from the cell's current value. -/
theorem checkWebsite_statusTransport_alerts_length (s : Status) (st : LastStatus) :
    (checkWebsite (statusTransport s) st 0).alerts.length
      = if encodeStatus s = st then 0 else 1 := by
  cases s with
  | healthy =>
    rcases eq_or_ne st (LastStatus.num 200) with rfl | hst <;>
      simp [checkWebsite, statusTransport, encodeStatus, *, eq_comm]
  | unhealthy code =>
    rcases eq_or_ne code 200 with rfl | hc
    · rcases eq_or_ne st (LastStatus.num 200) with rfl | hst <;>
        simp [checkWebsite, statusTransport, encodeStatus, *, eq_comm]
    · rcases eq_or_ne st (LastStatus.num code) with rfl | hst <;>
        simp [checkWebsite, statusTransport, encodeStatus, *, eq_comm]
  | unreachable =>
    rcases eq_or_ne st LastStatus.down with rfl | hst <;>
      simp [checkWebsite, statusTransport, encodeStatus, MAX_RETRIES, *, eq_comm]

/-- A cycle whose outcome matches the cell's current value emits no alert. -/
theorem checkWebsite_statusTransport_alerts_same (s : Status) :
    (checkWebsite (statusTransport s) (encodeStatus s) 0).alerts = [] := by
  have h := checkWebsite_statusTransport_alerts_length s (encodeStatus s)
  rw [if_pos rfl] at h
  exact List.length_eq_zero.mp h

/-- Repeating an outcome whose encoding is already in the cell emits no
alert at all. -/
theorem runCycles_replicate_encode (s : Status) :
    ∀ m, (runCycles (List.replicate m s) (encodeStatus s)).1 = [] := by
  intro m
  induction m with
  | zero => simp [runCycles]
  | succ k ih =>
    rw [List.replicate_succ]
    simp [runCycles, checkWebsite_statusTransport_newStatus,
      checkWebsite_statusTransport_alerts_same, ih]

/-! ## Claims -/

/-- Claim C1, counterexample.  With `lastStatus = "DOWN"` and a transport
whose first attempt completes with HTTP 200, the cycle's event order is
dispatch-await first, state-write second: the new status is NOT written
before the notification dispatch is awaited, contrary to the claim. -/
theorem claim_C1_counterexample :
    checkWebsiteEvents (fun _ => AttemptResult.response 200) LastStatus.down 0 =
      [Event.dispatchAwait Alert.backOnline, Event.stateWrite (LastStatus.num 200)] ∧
    List.indexOf (Event.dispatchAwait Alert.backOnline)
        (checkWebsiteEvents (fun _ => AttemptResult.response 200) LastStatus.down 0)
      < List.indexOf (Event.stateWrite (LastStatus.num 200))
        (checkWebsiteEvents (fun _ => AttemptResult.response 200) LastStatus.down 0) := by
  have h : checkWebsiteEvents (fun _ => AttemptResult.response 200) LastStatus.down 0 =
      [Event.dispatchAwait Alert.backOnline, Event.stateWrite (LastStatus.num 200)] := by
    simp [checkWebsiteEvents]
  exact ⟨h, by rw [h]; decide⟩

/-- Claim C1, amended: in every probe cycle the notification dispatch (if
any) is awaited BEFORE the new status is written into `lastStatus` — the
cycle's event trace is a (possibly empty) block of dispatch awaits followed
by the single state write, so a crash during dispatch leaves the state not
yet updated. -/
theorem claim_C1_amended (transport : Nat → AttemptResult) (st : LastStatus)
    (retries : Nat) :
    ∃ (as : List Alert) (s : LastStatus),
      checkWebsiteEvents transport st retries
        = as.map Event.dispatchAwait ++ [Event.stateWrite s] := by
  have h3 : MAX_RETRIES = 3 := rfl
  have H : ∀ n r, MAX_RETRIES + 1 - r ≤ n →
      ∃ (as : List Alert) (s : LastStatus),
        checkWebsiteEvents transport st r
          = as.map Event.dispatchAwait ++ [Event.stateWrite s] := by
    intro n
    induction n with
    | zero =>
      intro r hr
      rw [checkWebsiteEvents]
      split
      · rename_i status heq
        split
        · exact dispatch_then_write_shape (st ≠ LastStatus.num 200) Alert.backOnline
            (LastStatus.num 200)
        · exact dispatch_then_write_shape (st ≠ LastStatus.num status)
            (Alert.websiteDown status) (LastStatus.num status)
      · rename_i message heq
        rw [if_neg (by omega)]
        exact dispatch_then_write_shape (st ≠ LastStatus.down)
          (Alert.errorAccessing message) LastStatus.down
    | succ n ih =>
      intro r hr
      rw [checkWebsiteEvents]
      split
      · rename_i status heq
        split
        · exact dispatch_then_write_shape (st ≠ LastStatus.num 200) Alert.backOnline
            (LastStatus.num 200)
        · exact dispatch_then_write_shape (st ≠ LastStatus.num status)
            (Alert.websiteDown status) (LastStatus.num status)
      · rename_i message heq
        by_cases hlt : r < MAX_RETRIES
        · rw [if_pos hlt]
          exact ih (r + 1) (by omega)
        · rw [if_neg hlt]
          exact dispatch_then_write_shape (st ≠ LastStatus.down)
            (Alert.errorAccessing message) LastStatus.down
  exact H (MAX_RETRIES + 1) retries (by omega)

/-- Claim C3: a probe attempt whose transport completes with a non-200
response is classified immediately as unhealthy with that code, after
exactly one attempt and no retry (alerting iff the code differs from the
cell's current value). -/
theorem claim_C3_non200_no_retry (transport : Nat → AttemptResult) (st : LastStatus)
    (c : Nat) (h0 : transport 0 = AttemptResult.response c) (hc : c ≠ 200) :
    checkWebsite transport st 0 =
      { alerts := if st ≠ LastStatus.num c then [Alert.websiteDown c] else [],
        newStatus := LastStatus.num c,
        attempts := 1 } := by
  simp [checkWebsite, h0, hc]

/-- Witness for claim C3: HTTP 503 on the first attempt yields
`Unhealthy(503)` with exactly one attempt. -/
theorem claim_C3_witness :
    (fun _ : Nat => AttemptResult.response 503) 0 = AttemptResult.response 503 ∧
    503 ≠ 200 ∧
    checkWebsite (fun _ => AttemptResult.response 503) (LastStatus.num 200) 0 =
      { alerts := if LastStatus.num 200 ≠ LastStatus.num 503 then [Alert.websiteDown 503] else [],
        newStatus := LastStatus.num 503,
        attempts := 1 } :=
  ⟨rfl, by decide, claim_C3_non200_no_retry (fun _ => AttemptResult.response 503)
    (LastStatus.num 200) 503 rfl (by decide)⟩

/-- Claim C6: from reported status Healthy, the outcome sequence
`Unhealthy(500), Unhealthy(503), Unhealthy(500)` produces exactly three
alerts — every transition to a distinct unhealthy code alerts, including a
revisit of a previously seen code. -/
theorem claim_C6_flap_three_alerts :
    (runCycles [Status.unhealthy 500, Status.unhealthy 503, Status.unhealthy 500]
        (LastStatus.num 200)).1 =
      [Alert.websiteDown 500, Alert.websiteDown 503, Alert.websiteDown 500] ∧
    ((runCycles [Status.unhealthy 500, Status.unhealthy 503, Status.unhealthy 500]
        (LastStatus.num 200)).1).length = 3 := by
  have h : (runCycles [Status.unhealthy 500, Status.unhealthy 503, Status.unhealthy 500]
      (LastStatus.num 200)).1 =
      [Alert.websiteDown 500, Alert.websiteDown 503, Alert.websiteDown 500] := by
    simp [runCycles, checkWebsite, statusTransport]
  exact ⟨h, by rw [h]; rfl⟩

/-- Claim C7: when the transport completes with HTTP 200, the cycle emits
exactly one back-online alert if the last reported status was not Healthy
and none if it was, and the state becomes Healthy (200) either way. -/
theorem claim_C7_healthy_transition (transport : Nat → AttemptResult)
    (st : LastStatus) (h0 : transport 0 = AttemptResult.response 200) :
    checkWebsite transport st 0 =
      { alerts := if st ≠ LastStatus.num 200 then [Alert.backOnline] else [],
        newStatus := LastStatus.num 200,
        attempts := 1 } := by
  simp [checkWebsite, h0]

/-- Witness for claim C7: from `lastStatus = "DOWN"`, a 200 response emits
one back-online alert and restores Healthy. -/
theorem claim_C7_witness :
    (fun _ : Nat => AttemptResult.response 200) 0 = AttemptResult.response 200 ∧
    checkWebsite (fun _ => AttemptResult.response 200) LastStatus.down 0 =
      { alerts := if LastStatus.down ≠ LastStatus.num 200 then [Alert.backOnline] else [],
        newStatus := LastStatus.num 200,
        attempts := 1 } :=
  ⟨rfl, claim_C7_healthy_transition (fun _ => AttemptResult.response 200)
    LastStatus.down rfl⟩

/-- Claim C2 (code bug evidence): when the Telegram post rejects with an
error that carries no `response` object — e.g. a plain network error — the
catch block's `error.response.data` access (line 132 of `src/main.js`)
itself throws, the TypeError escapes `sendTelegramMessage`, the
`Promise.all` in `sendNotification` rejects, and dispatch does NOT return
normally to its caller, contrary to the claim and the spec's contract. -/
theorem claim_C2_dispatch_raises :
    (sendNotification
        (Except.error { message := "connect ECONNREFUSED", response := none })
        (Except.ok ()) (PostCall.promised (Except.ok ()))).thrown
      = some "TypeError: cannot read property data of undefined" := rfl

/-- Claim C4: against a transport that throws on every attempt,
`checkWebsite` performs exactly `MAX_RETRIES + 1 = 4` attempts, classifies
the outcome as `"DOWN"` (Unreachable), and the alert it dispatches (when
the cell is not already `"DOWN"`) carries the LAST attempt's error
message. -/
theorem claim_C4_retry_bound (transport : Nat → AttemptResult) (st : LastStatus)
    (h : ∀ i, ∃ m, transport i = AttemptResult.throws m) :
    MAX_RETRIES = 3 ∧
    (checkWebsite transport st 0).attempts = MAX_RETRIES + 1 ∧
    (checkWebsite transport st 0).newStatus = LastStatus.down ∧
    ∀ m, transport MAX_RETRIES = AttemptResult.throws m →
      (checkWebsite transport st 0).alerts
        = if st ≠ LastStatus.down then [Alert.errorAccessing m] else [] := by
  obtain ⟨m0, h0⟩ := h 0
  obtain ⟨m1, h1⟩ := h 1
  obtain ⟨m2, h2⟩ := h 2
  obtain ⟨m3, h3⟩ := h 3
  have hc : checkWebsite transport st 0 =
      { alerts := if st ≠ LastStatus.down then [Alert.errorAccessing m3] else [],
        newStatus := LastStatus.down,
        attempts := 4 } := by
    simp [checkWebsite, MAX_RETRIES, h0, h1, h2, h3]
  refine ⟨rfl, by rw [hc]; rfl, by rw [hc], ?_⟩
  intro m hm
  have hm3 : transport 3 = AttemptResult.throws m := hm
  have h3' : AttemptResult.throws m3 = AttemptResult.throws m := by
    rw [← h3, ← hm3]
  cases h3'
  rw [hc]

/-- Witness for claim C4: a transport that always throws the same message
makes 4 attempts and leaves `"DOWN"`. -/
theorem claim_C4_witness :
    (∀ i, ∃ m, (fun _ : Nat => AttemptResult.throws "read ETIMEDOUT") i
        = AttemptResult.throws m) ∧
    (MAX_RETRIES = 3 ∧
      (checkWebsite (fun _ => AttemptResult.throws "read ETIMEDOUT")
          (LastStatus.num 200) 0).attempts = MAX_RETRIES + 1 ∧
      (checkWebsite (fun _ => AttemptResult.throws "read ETIMEDOUT")
          (LastStatus.num 200) 0).newStatus = LastStatus.down ∧
      ∀ m, (fun _ : Nat => AttemptResult.throws "read ETIMEDOUT") MAX_RETRIES
          = AttemptResult.throws m →
        (checkWebsite (fun _ => AttemptResult.throws "read ETIMEDOUT")
            (LastStatus.num 200) 0).alerts
          = if LastStatus.num 200 ≠ LastStatus.down then [Alert.errorAccessing m] else []) :=
  ⟨fun _ => ⟨"read ETIMEDOUT", rfl⟩,
   claim_C4_retry_bound (fun _ => AttemptResult.throws "read ETIMEDOUT")
     (LastStatus.num 200) (fun _ => ⟨"read ETIMEDOUT", rfl⟩)⟩

/-- Claim C5: a run of `n ≥ 1` consecutive identical classified outcomes
emits exactly one alert when the outcome's encoding differs from the last
reported status (in particular at process start, where the cell holds 200,
for any non-Healthy outcome), and none when it is the same — never `n`
alerts. -/
theorem claim_C5_run_alerts_once (s : Status) (st : LastStatus) (n : Nat)
    (h : 1 ≤ n) :
    ((runCycles (List.replicate n s) st).1).length
      = if encodeStatus s = st then 0 else 1 := by
  obtain ⟨m, rfl⟩ : ∃ m, n = m + 1 := ⟨n - 1, by omega⟩
  rw [List.replicate_succ]
  simp only [runCycles]
  rw [checkWebsite_statusTransport_newStatus, runCycles_replicate_encode]
  simp [checkWebsite_statusTransport_alerts_length]

/-- Witness for claim C5: three consecutive `Unhealthy(503)` outcomes from
a Healthy state produce one alert in total. -/
theorem claim_C5_witness :
    1 ≤ 3 ∧
    ((runCycles (List.replicate 3 (Status.unhealthy 503)) (LastStatus.num 200)).1).length
      = if encodeStatus (Status.unhealthy 503) = LastStatus.num 200 then 0 else 1 :=
  ⟨by decide, claim_C5_run_alerts_once (Status.unhealthy 503) (LastStatus.num 200) 3
    (by decide)⟩

/-- Claim C8: if any required configuration variable (bot token, recipient
chat identifiers, target URL, webhook URL) is unset, startup exits with the
non-zero code 1 before the monitoring loop; with the bot token, target URL
and webhook URL set to non-empty values and at least one recipient chat
identifier configured, it does not exit and reaches the loop. -/
theorem claim_C8_startup (e : Env) :
    ((e.TELEGRAM_BOT_TOKEN = none ∨ e.TELEGRAM_CHAT_IDS = none ∨
        e.URL_TO_CHECK = none ∨ e.SLACK_WEBHOOK_URL = none) →
      ∃ c, startup e = StartupResult.exitProcess c ∧ c ≠ 0) ∧
    (jsTruthy e.TELEGRAM_BOT_TOKEN = true → chatIdsOf e ≠ [] →
      jsTruthy e.URL_TO_CHECK = true → jsTruthy e.SLACK_WEBHOOK_URL = true →
      startup e = StartupResult.enterLoop) := by
  constructor
  · intro hmiss
    refine ⟨1, ?_, one_ne_zero⟩
    rcases hmiss with h | h | h | h <;> simp [startup, jsTruthy, chatIdsOf, h]
  · intro ht hchat hu hw
    have hlen : ((chatIdsOf e).length == 0) = false := by
      rw [beq_eq_false_iff_ne]
      intro h0
      exact hchat (List.length_eq_zero.mp h0)
    simp [startup, ht, hu, hw, hlen]

/-- Witness for claim C8: with the bot token unset startup exits with code
1; with all four variables configured it reaches the monitoring loop. -/
theorem claim_C8_witness :
    (∃ c, startup
        { TELEGRAM_BOT_TOKEN := none, TELEGRAM_CHAT_IDS := some "123456",
          SLACK_WEBHOOK_URL := some "https://hooks.example/T0", URL_TO_CHECK := some "https://example.com" }
        = StartupResult.exitProcess c ∧ c ≠ 0) ∧
    startup
        { TELEGRAM_BOT_TOKEN := some "bot-token", TELEGRAM_CHAT_IDS := some "123456,7890",
          SLACK_WEBHOOK_URL := some "https://hooks.example/T0", URL_TO_CHECK := some "https://example.com" }
      = StartupResult.enterLoop :=
  ⟨(claim_C8_startup _).1 (Or.inl rfl),
   (claim_C8_startup _).2 (by decide) (by decide) (by decide) (by decide)⟩

/-- Claim C9: the SMS backend does not wait on the bulk-send call's result:
whatever outcome the returned promise later settles with (success or
failure), `sendSmsMessage` logs the success line and completes without
throwing, and the failure log of its catch branch never appears. -/
theorem claim_C9_sms_fire_and_forget (outcome : Except JsError Unit) :
    sendSmsMessage (PostCall.promised outcome)
      = { logs := ["📨 Sms message sent."], thrown := none } := rfl

/-- Claim C10: the `lastStatus` cell starts at the number 200, and after a
probe cycle it holds either the number 200, a non-200 numeric HTTP status
code actually received from the transport, or `"DOWN"` (the string-typed
Unreachable marker, a separate constructor of `LastStatus`); the cell is
threaded exclusively through `checkWebsite`. -/
theorem claim_C10_lastStatus_invariant :
    lastStatusInit = LastStatus.num 200 ∧
    ∀ (transport : Nat → AttemptResult) (st : LastStatus) (retries : Nat),
      (checkWebsite transport st retries).newStatus = LastStatus.num 200 ∨
      (checkWebsite transport st retries).newStatus = LastStatus.down ∨
      ∃ c, c ≠ 200 ∧ (checkWebsite transport st retries).newStatus = LastStatus.num c ∧
        ∃ i, transport i = AttemptResult.response c := by
  refine ⟨rfl, ?_⟩
  intro transport st retries
  have h3 : MAX_RETRIES = 3 := rfl
  have H : ∀ n r, MAX_RETRIES + 1 - r ≤ n →
      (checkWebsite transport st r).newStatus = LastStatus.num 200 ∨
      (checkWebsite transport st r).newStatus = LastStatus.down ∨
      ∃ c, c ≠ 200 ∧ (checkWebsite transport st r).newStatus = LastStatus.num c ∧
        ∃ i, transport i = AttemptResult.response c := by
    intro n
    induction n with
    | zero =>
      intro r hr
      rw [checkWebsite]
      split
      · rename_i status heq
        split
        · rename_i hs
          subst hs
          exact Or.inl rfl
        · rename_i hs
          exact Or.inr (Or.inr ⟨status, hs, rfl, r, heq⟩)
      · rename_i message heq
        rw [if_neg (by omega)]
        exact Or.inr (Or.inl rfl)
    | succ n ih =>
      intro r hr
      rw [checkWebsite]
      split
      · rename_i status heq
        split
        · rename_i hs
          subst hs
          exact Or.inl rfl
        · rename_i hs
          exact Or.inr (Or.inr ⟨status, hs, rfl, r, heq⟩)
      · rename_i message heq
        by_cases hlt : r < MAX_RETRIES
        · rw [if_pos hlt]
          exact ih (r + 1) (by omega)
        · rw [if_neg hlt]
          exact Or.inr (Or.inl rfl)
  exact H (MAX_RETRIES + 1) retries (by omega)

end HealthCheck
